import Mathlib

set_option maxHeartbeats 1000000

/-
Verification of the MindSpend Labs client-side utility modules.

The development shallowly embeds the repository's JavaScript modules:
  * the Local Cache Store (`StorageManager` in src/unnamed/part_000) together
    with a concrete model of the platform's JSON marshalling
    (`JSON.stringify` / `JSON.parse` restricted to the canonical strings the
    store actually writes; numbers are modelled as integers, since no claim
    depends on floating-point formatting),
  * the Auth Session Manager (`AuthManager` in src/frontend/utils/auth.js and
    its variant in src/unnamed/part_001),
  * the API Facade (`API` in src/frontend/utils/rls-debug.js),
  * the Navigation Component's name-resolution logic
    (src/frontend/utils/navigation.js).

The external auth+database collaborator is modelled by an oracle record
(`Collab`) giving each endpoint's response; a rejected promise is an
`Except.error` carrying the exception message.  Each embedded operation
returns its result together with the list of collaborator calls it issued and
(where relevant) the updated local storage and the browser events dispatched.
-/

/-! ## JSON values and the platform marshalling -/

/-- JSON-serializable values.  Numbers are modelled as integers. -/
inductive Json where
  | null : Json
  | bool : Bool → Json
  | num : Int → Json
  | str : String → Json
  | arr : List Json → Json
  | obj : List (String × Json) → Json

/-- The decimal digit character for `n < 10`. -/
def digitCh (n : Nat) : Char := Char.ofNat (48 + n)

/-- Decimal digits of a natural number, most significant first. -/
def natDigits (n : Nat) : List Char :=
  if _h : n < 10 then [digitCh n]
  else natDigits (n / 10) ++ [digitCh (n % 10)]
termination_by n
decreasing_by exact Nat.div_lt_self (by omega) (by omega)

/-- Rendering of an integer as `JSON.stringify` renders it. -/
def renderInt (n : Int) : List Char :=
  if n < 0 then '-' :: natDigits n.natAbs else natDigits n.toNat

/-- Rendering of the characters of a string body followed by the closing
quote, escaping quote and backslash (control-character escaping is elided;
it does not affect round-tripping). -/
def renderStrTail (cs : List Char) : List Char :=
  match cs with
  | [] => ['"']
  | c :: cs' => if c = '"' ∨ c = '\\' then '\\' :: c :: renderStrTail cs' else c :: renderStrTail cs'

mutual

/-- `JSON.stringify` (canonical form, no whitespace), as a character list. -/
def render : Json → List Char
  | Json.null => ['n', 'u', 'l', 'l']
  | Json.bool true => ['t', 'r', 'u', 'e']
  | Json.bool false => ['f', 'a', 'l', 's', 'e']
  | Json.num n => renderInt n
  | Json.str s => '"' :: renderStrTail s.data
  | Json.arr [] => ['[', ']']
  | Json.arr (v :: vs) => '[' :: (render v ++ renderArrTail vs)
  | Json.obj [] => ['{', '}']
  | Json.obj (kv :: kvs) => '{' :: (renderMember kv ++ renderObjTail kvs)

/-- Remaining elements of an array, each preceded by a comma, then `]`. -/
def renderArrTail : List Json → List Char
  | [] => [']']
  | v :: vs => ',' :: (render v ++ renderArrTail vs)

/-- One `"key":value` member of an object. -/
def renderMember : String × Json → List Char
  | (k, v) => '"' :: (renderStrTail k.data ++ (':' :: render v))

/-- Remaining members of an object, each preceded by a comma, then `}`. -/
def renderObjTail : List (String × Json) → List Char
  | [] => ['}']
  | kv :: kvs => ',' :: (renderMember kv ++ renderObjTail kvs)

end

/-! Parser (the behaviour of `JSON.parse` on the canonical strings
produced by `render`). -/

/-- Accumulating decimal-number parser: consumes leading digits. -/
def parseNatAux : Nat → List Char → Nat × List Char
  | acc, [] => (acc, [])
  | acc, c :: rest =>
    if c.isDigit then parseNatAux (acc * 10 + (c.toNat - 48)) rest else (acc, c :: rest)

/-- Parses a nonempty digit sequence. -/
def parsePosNat : List Char → Option (Nat × List Char)
  | [] => none
  | c :: rest => if c.isDigit then some (parseNatAux (c.toNat - 48) rest) else none

/-- Parses an optionally negated decimal integer. -/
def parseNum : List Char → Option (Int × List Char)
  | [] => none
  | c :: rest =>
    if c = '-' then (parsePosNat rest).map (fun p => (-(p.1 : Int), p.2))
    else (parsePosNat (c :: rest)).map (fun p => ((p.1 : Int), p.2))

/-- Parses a string body up to an unescaped closing quote. -/
def parseJStr : List Char → List Char → Option (List Char × List Char)
  | _, [] => none
  | acc, c :: rest =>
    if c = '"' then some (acc.reverse, rest)
    else if c = '\\' then
      match rest with
      | [] => none
      | d :: rest' => parseJStr (d :: acc) rest'
    else parseJStr (c :: acc) rest

/-- Whether a character list starts with the given character. -/
def headIs (l : List Char) (c : Char) : Bool :=
  match l with
  | [] => false
  | d :: _ => d = c

/-- Drops an expected literal from the input. -/
def dropLit : List Char → List Char → Option (List Char)
  | [], rest => some rest
  | _ :: _, [] => none
  | c :: cs, d :: rest => if c = d then dropLit cs rest else none

mutual

/-- Fuel-indexed JSON value parser. -/
def parseVal : Nat → List Char → Option (Json × List Char)
  | 0, _ => none
  | _ + 1, [] => none
  | fuel + 1, c :: rest =>
    if c = 'n' then (dropLit ['u', 'l', 'l'] rest).map (fun r => (Json.null, r))
    else if c = 't' then (dropLit ['r', 'u', 'e'] rest).map (fun r => (Json.bool true, r))
    else if c = 'f' then (dropLit ['a', 'l', 's', 'e'] rest).map (fun r => (Json.bool false, r))
    else if c = '"' then (parseJStr [] rest).map (fun p => (Json.str ⟨p.1⟩, p.2))
    else if c = '[' then
      if headIs rest ']' then some (Json.arr [], rest.tail)
      else
        match parseVal fuel rest with
        | some (v, r1) =>
          match parseArrTail fuel r1 with
          | some (vs, r2) => some (Json.arr (v :: vs), r2)
          | none => none
        | none => none
    else if c = '{' then
      if headIs rest '}' then some (Json.obj [], rest.tail)
      else
        match parseMember fuel rest with
        | some (kv, r1) =>
          match parseObjTail fuel r1 with
          | some (kvs, r2) => some (Json.obj (kv :: kvs), r2)
          | none => none
        | none => none
    else (parseNum (c :: rest)).map (fun p => (Json.num p.1, p.2))

/-- Parses `]` or `,`-separated further array elements. -/
def parseArrTail : Nat → List Char → Option (List Json × List Char)
  | 0, _ => none
  | _ + 1, [] => none
  | fuel + 1, c :: rest =>
    if c = ']' then some ([], rest)
    else if c = ',' then
      match parseVal fuel rest with
      | some (v, r1) =>
        match parseArrTail fuel r1 with
        | some (vs, r2) => some (v :: vs, r2)
        | none => none
      | none => none
    else none

/-- Parses one `"key":value` object member. -/
def parseMember : Nat → List Char → Option ((String × Json) × List Char)
  | 0, _ => none
  | _ + 1, [] => none
  | fuel + 1, c :: rest =>
    if c = '"' then
      match parseJStr [] rest with
      | some (k, r) =>
        if headIs r ':' then
          match parseVal fuel r.tail with
          | some (v, r2) => some ((⟨k⟩, v), r2)
          | none => none
        else none
      | none => none
    else none

/-- Parses `}` or `,`-separated further object members. -/
def parseObjTail : Nat → List Char → Option (List (String × Json) × List Char)
  | 0, _ => none
  | _ + 1, [] => none
  | fuel + 1, c :: rest =>
    if c = '}' then some ([], rest)
    else if c = ',' then
      match parseMember fuel rest with
      | some (kv, r1) =>
        match parseObjTail fuel r1 with
        | some (kvs, r2) => some (kv :: kvs, r2)
        | none => none
      | none => none
    else none

end

/-- `JSON.stringify`. -/
def stringify (v : Json) : String := ⟨render v⟩

/-- `JSON.parse` (succeeds exactly when the whole input is a canonical
rendering; `none` models a thrown `SyntaxError`). -/
def parse (s : String) : Option Json :=
  match parseVal s.data.length s.data with
  | some (v, []) => some v
  | _ => none

/-! ## Round-trip of the marshalling -/

/-- Whether the characters following a rendered value cannot be mistaken
for further digits of a number. -/
def tailOk (l : List Char) : Bool :=
  match l with
  | [] => true
  | c :: _ => !c.isDigit

theorem digitCh_isDigit {k : Nat} (h : k < 10) : (digitCh k).isDigit = true := by
  interval_cases k <;> decide

theorem digitCh_val {k : Nat} (h : k < 10) : (digitCh k).toNat - 48 = k := by
  interval_cases k <;> decide

theorem natDigits_digits (n : Nat) : ∀ c ∈ natDigits n, c.isDigit = true := by
  induction n using Nat.strong_induction_on with
  | _ n ih =>
    rw [natDigits]
    split_ifs with h
    · intro c hc
      simp only [List.mem_singleton] at hc
      subst hc
      exact digitCh_isDigit h
    · intro c hc
      rw [List.mem_append] at hc
      rcases hc with hc | hc
      · exact ih (n / 10) (Nat.div_lt_self (by omega) (by omega)) c hc
      · simp only [List.mem_singleton] at hc
        subst hc
        exact digitCh_isDigit (Nat.mod_lt _ (by omega))

theorem natDigits_ne_nil (n : Nat) : natDigits n ≠ [] := by
  rw [natDigits]
  split_ifs <;> simp

theorem digitsFold (n : Nat) :
    ∀ acc, (natDigits n).foldl (fun a c => a * 10 + (c.toNat - 48)) acc =
      acc * 10 ^ (natDigits n).length + n := by
  induction n using Nat.strong_induction_on with
  | _ n ih =>
    intro acc
    rw [natDigits]
    split_ifs with h
    · simp [digitCh_val h]
    · rw [List.foldl_append, List.length_append]
      rw [ih (n / 10) (Nat.div_lt_self (by omega) (by omega)) acc]
      simp only [List.foldl_cons, List.foldl_nil, List.length_cons, List.length_nil]
      rw [digitCh_val (Nat.mod_lt _ (by omega))]
      have h10 : 10 ^ ((natDigits (n / 10)).length + (0 + 1)) =
          10 ^ (natDigits (n / 10)).length * 10 := by
        rw [pow_succ]
      rw [h10]
      have := Nat.div_add_mod n 10
      ring_nf
      omega

theorem parseNatAux_append (ds : List Char) (h : ∀ c ∈ ds, c.isDigit = true) :
    ∀ acc rest, parseNatAux acc (ds ++ rest) =
      parseNatAux (ds.foldl (fun a c => a * 10 + (c.toNat - 48)) acc) rest := by
  induction ds with
  | nil => intro acc rest; rfl
  | cons c ds ihd =>
    intro acc rest
    have hc : c.isDigit = true := h c (by simp)
    simp only [List.cons_append, parseNatAux, hc, if_true]
    exact ihd (fun d hd => h d (by simp [hd])) _ rest

theorem parseNatAux_stop (acc : Nat) (rest : List Char) (h : tailOk rest = true) :
    parseNatAux acc rest = (acc, rest) := by
  cases rest with
  | nil => rfl
  | cons c t =>
    simp only [tailOk, Bool.not_eq_true'] at h
    simp [parseNatAux, h]

theorem parsePos_natDigits (n : Nat) (rest : List Char) (h : tailOk rest = true) :
    parsePosNat (natDigits n ++ rest) = some (n, rest) := by
  obtain ⟨d, ds, hds⟩ : ∃ d ds, natDigits n = d :: ds := by
    cases hnd : natDigits n with
    | nil => exact absurd hnd (natDigits_ne_nil n)
    | cons d ds => exact ⟨d, ds, rfl⟩
  have hdig : d.isDigit = true := natDigits_digits n d (by rw [hds]; simp)
  rw [hds]
  simp only [List.cons_append, parsePosNat, hdig, if_true]
  have hall : ∀ c ∈ ds, c.isDigit = true := by
    intro c hc
    exact natDigits_digits n c (by rw [hds]; simp [hc])
  rw [parseNatAux_append ds hall, parseNatAux_stop _ _ h]
  have hfold : (d :: ds).foldl (fun a c => a * 10 + (c.toNat - 48)) 0 =
      0 * 10 ^ (d :: ds).length + n := by
    rw [← hds]; exact digitsFold n 0
  simp only [List.foldl_cons, Nat.zero_mul, Nat.zero_add] at hfold
  rw [hfold]

theorem isDigit_ne {c d : Char} (h : c.isDigit = true) (hd : d.isDigit = false) : c ≠ d := by
  intro he
  rw [he] at h
  simp [h] at hd

theorem parseNum_renderInt (n : Int) (rest : List Char) (h : tailOk rest = true) :
    parseNum (renderInt n ++ rest) = some (n, rest) := by
  unfold renderInt
  split_ifs with hn
  · simp only [List.cons_append, parseNum, if_pos rfl]
    rw [parsePos_natDigits n.natAbs rest h]
    simp only [Option.map_some', if_true]
    have he : -((n.natAbs : Nat) : Int) = n := by omega
    rw [he]
  · obtain ⟨d, ds, hds⟩ : ∃ d ds, natDigits n.toNat = d :: ds := by
      cases hnd : natDigits n.toNat with
      | nil => exact absurd hnd (natDigits_ne_nil _)
      | cons d ds => exact ⟨d, ds, rfl⟩
    have hdig : d.isDigit = true := natDigits_digits _ d (by rw [hds]; simp)
    have hne : d ≠ '-' := isDigit_ne hdig (by decide)
    rw [hds]
    simp only [List.cons_append, parseNum, if_neg hne]
    rw [← List.cons_append, ← hds, parsePos_natDigits _ rest h]
    simp only [Option.map_some']
    have he : ((n.toNat : Nat) : Int) = n := by omega
    rw [he]

theorem parseJStr_cons (acc : List Char) (c : Char) (rest : List Char) :
    parseJStr acc (c :: rest) =
      if c = '"' then some (acc.reverse, rest)
      else if c = '\\' then
        match rest with
        | [] => none
        | d :: rest' => parseJStr (d :: acc) rest'
      else parseJStr (c :: acc) rest := by
  rw [parseJStr.eq_def]

theorem parseJStr_render (cs : List Char) :
    ∀ acc rest, parseJStr acc (renderStrTail cs ++ rest) = some (acc.reverse ++ cs, rest) := by
  induction cs with
  | nil =>
    intro acc rest
    rw [renderStrTail]
    simp only [List.cons_append, List.nil_append, parseJStr_cons, if_pos rfl]
    simp
  | cons c cs ihc =>
    intro acc rest
    rw [renderStrTail]
    split_ifs with hc
    · simp only [List.cons_append, parseJStr_cons,
        if_neg (by decide : ¬('\\' : Char) = '"'), if_pos rfl]
      rw [ihc (c :: acc) rest]
      simp
    · push_neg at hc
      simp only [List.cons_append, parseJStr_cons, if_neg hc.1, if_neg hc.2]
      rw [ihc (c :: acc) rest]
      simp

theorem tailOk_arrTail (vs : List Json) (rest : List Char) :
    tailOk (renderArrTail vs ++ rest) = true := by
  cases vs <;> simp [renderArrTail, tailOk]

theorem tailOk_objTail (kvs : List (String × Json)) (rest : List Char) :
    tailOk (renderObjTail kvs ++ rest) = true := by
  cases kvs <;> simp [renderObjTail, tailOk]

theorem headIs_append {l : List Char} (x : List Char) (c : Char) (h : l ≠ []) :
    headIs (l ++ x) c = headIs l c := by
  cases l with
  | nil => exact absurd rfl h
  | cons d t => rfl

theorem renderInt_shape (n : Int) :
    ∃ d ds, renderInt n = d :: ds ∧ (d = '-' ∨ d.isDigit = true) := by
  unfold renderInt
  split_ifs with hn
  · exact ⟨'-', _, rfl, Or.inl rfl⟩
  · obtain ⟨d, ds, hds⟩ : ∃ d ds, natDigits n.toNat = d :: ds := by
      cases hnd : natDigits n.toNat with
      | nil => exact absurd hnd (natDigits_ne_nil _)
      | cons d ds => exact ⟨d, ds, rfl⟩
    exact ⟨d, ds, hds, Or.inr (natDigits_digits _ d (by rw [hds]; simp))⟩

theorem render_shape (v : Json) :
    ∃ d ds, render v = d :: ds ∧ d ≠ ']' := by
  cases v with
  | null => exact ⟨'n', _, rfl, by decide⟩
  | bool b => cases b
              · exact ⟨'f', _, rfl, by decide⟩
              · exact ⟨'t', _, rfl, by decide⟩
  | num n =>
    obtain ⟨d, ds, hds, hd⟩ := renderInt_shape n
    refine ⟨d, ds, by rw [render, hds], ?_⟩
    rcases hd with hd | hd
    · rw [hd]; decide
    · exact isDigit_ne hd (by decide)
  | str s => exact ⟨'"', _, rfl, by decide⟩
  | arr xs => cases xs
              · exact ⟨'[', _, rfl, by decide⟩
              · exact ⟨'[', _, rfl, by decide⟩
  | obj xs => cases xs
              · exact ⟨'{', _, rfl, by decide⟩
              · exact ⟨'{', _, rfl, by decide⟩

mutual

/-- Fuel sufficient for `parseVal` to parse a rendered value. -/
def jfuel : Json → Nat
  | Json.null => 1
  | Json.bool _ => 1
  | Json.num _ => 1
  | Json.str _ => 1
  | Json.arr [] => 1
  | Json.arr (v :: vs) => 1 + (jfuel v + tfuel vs)
  | Json.obj [] => 1
  | Json.obj (kv :: kvs) => 1 + (mfuel kv + ofuel kvs)

/-- Fuel sufficient for `parseArrTail`. -/
def tfuel : List Json → Nat
  | [] => 1
  | v :: vs => 1 + (jfuel v + tfuel vs)

/-- Fuel sufficient for `parseMember`. -/
def mfuel : String × Json → Nat
  | (_, v) => 1 + jfuel v

/-- Fuel sufficient for `parseObjTail`. -/
def ofuel : List (String × Json) → Nat
  | [] => 1
  | kv :: kvs => 1 + (mfuel kv + ofuel kvs)

end

theorem jfuel_pos (v : Json) : 1 ≤ jfuel v := by
  cases v with
  | arr xs => cases xs <;> simp [jfuel]
  | obj xs => cases xs <;> simp [jfuel]
  | _ => simp [jfuel]

theorem tfuel_pos (vs : List Json) : 1 ≤ tfuel vs := by
  cases vs <;> simp [tfuel]

theorem mfuel_pos (kv : String × Json) : 1 ≤ mfuel kv := by
  obtain ⟨k, v⟩ := kv; simp [mfuel]

theorem ofuel_pos (kvs : List (String × Json)) : 1 ≤ ofuel kvs := by
  cases kvs <;> simp [ofuel]

theorem renderStrTail_len (cs : List Char) : 1 ≤ (renderStrTail cs).length := by
  induction cs with
  | nil => simp [renderStrTail]
  | cons c cs ihc =>
    rw [renderStrTail]
    split_ifs <;> simp

theorem renderInt_len (n : Int) : 1 ≤ (renderInt n).length := by
  obtain ⟨d, ds, hds, _⟩ := renderInt_shape n
  rw [hds]; simp

theorem fuel_le_len_aux : ∀ N : Nat,
    (∀ v, jfuel v ≤ N → jfuel v ≤ (render v).length) ∧
    (∀ vs, tfuel vs ≤ N → tfuel vs ≤ (renderArrTail vs).length) ∧
    (∀ kv, mfuel kv ≤ N → mfuel kv ≤ (renderMember kv).length) ∧
    (∀ kvs, ofuel kvs ≤ N → ofuel kvs ≤ (renderObjTail kvs).length) := by
  intro N
  induction N with
  | zero =>
    refine ⟨?_, ?_, ?_, ?_⟩
    · intro v hv; have := jfuel_pos v; omega
    · intro vs hvs; have := tfuel_pos vs; omega
    · intro kv hkv; have := mfuel_pos kv; omega
    · intro kvs hkvs; have := ofuel_pos kvs; omega
  | succ N ihN =>
    obtain ⟨ihV, ihT, ihM, ihO⟩ := ihN
    refine ⟨?_, ?_, ?_, ?_⟩
    · intro v hv
      cases v with
      | null => simp [jfuel, render]
      | bool b => cases b <;> simp [jfuel, render]
      | num n => simpa [jfuel, render] using renderInt_len n
      | str s =>
        have := renderStrTail_len s.data
        simp only [jfuel, render, List.length_cons]
        omega
      | arr xs =>
        cases xs with
        | nil => simp [jfuel, render]
        | cons v vs =>
          simp only [jfuel] at hv
          have h1 := ihV v (by have := tfuel_pos vs; omega)
          have h2 := ihT vs (by have := jfuel_pos v; omega)
          simp only [jfuel, render, List.length_cons, List.length_append]
          omega
      | obj xs =>
        cases xs with
        | nil => simp [jfuel, render]
        | cons kv kvs =>
          simp only [jfuel] at hv
          have h1 := ihM kv (by have := ofuel_pos kvs; omega)
          have h2 := ihO kvs (by have := mfuel_pos kv; omega)
          simp only [jfuel, render, List.length_cons, List.length_append]
          omega
    · intro vs hvs
      cases vs with
      | nil => simp [tfuel, renderArrTail]
      | cons v vs =>
        simp only [tfuel] at hvs
        have h1 := ihV v (by have := tfuel_pos vs; omega)
        have h2 := ihT vs (by have := jfuel_pos v; omega)
        simp only [tfuel, renderArrTail, List.length_cons, List.length_append]
        omega
    · intro kv hkv
      obtain ⟨k, v⟩ := kv
      simp only [mfuel] at hkv
      have h1 := ihV v (by omega)
      have h2 := renderStrTail_len k.data
      simp only [mfuel, renderMember, List.length_cons, List.length_append]
      omega
    · intro kvs hkvs
      cases kvs with
      | nil => simp [ofuel, renderObjTail]
      | cons kv kvs =>
        simp only [ofuel] at hkvs
        have h1 := ihM kv (by have := ofuel_pos kvs; omega)
        have h2 := ihO kvs (by have := mfuel_pos kv; omega)
        simp only [ofuel, renderObjTail, List.length_cons, List.length_append]
        omega

theorem jfuel_le_len (v : Json) : jfuel v ≤ (render v).length :=
  (fuel_le_len_aux (jfuel v)).1 v le_rfl

theorem strMk_data (s : String) : (⟨s.data⟩ : String) = s := rfl

theorem numHead_ne {d : Char} (hd : d = '-' ∨ d.isDigit = true) :
    d ≠ 'n' ∧ d ≠ 't' ∧ d ≠ 'f' ∧ d ≠ '"' ∧ d ≠ '[' ∧ d ≠ '{' := by
  rcases hd with h | h
  · subst h
    exact ⟨by decide, by decide, by decide, by decide, by decide, by decide⟩
  · exact ⟨isDigit_ne h (by decide), isDigit_ne h (by decide), isDigit_ne h (by decide),
      isDigit_ne h (by decide), isDigit_ne h (by decide), isDigit_ne h (by decide)⟩

theorem parseVal_null_lit (fuel : Nat) (rest : List Char) :
    parseVal (fuel + 1) ('n' :: rest) =
      (dropLit ['u', 'l', 'l'] rest).map (fun r => (Json.null, r)) := by
  simp [parseVal]

theorem parseVal_true_lit (fuel : Nat) (rest : List Char) :
    parseVal (fuel + 1) ('t' :: rest) =
      (dropLit ['r', 'u', 'e'] rest).map (fun r => (Json.bool true, r)) := by
  simp [parseVal]

theorem parseVal_false_lit (fuel : Nat) (rest : List Char) :
    parseVal (fuel + 1) ('f' :: rest) =
      (dropLit ['a', 'l', 's', 'e'] rest).map (fun r => (Json.bool false, r)) := by
  simp [parseVal]

theorem parseVal_quote (fuel : Nat) (rest : List Char) :
    parseVal (fuel + 1) ('"' :: rest) =
      (parseJStr [] rest).map (fun p => (Json.str ⟨p.1⟩, p.2)) := by
  simp [parseVal]

theorem parseVal_lbrack (fuel : Nat) (rest : List Char) :
    parseVal (fuel + 1) ('[' :: rest) =
      (if headIs rest ']' then some (Json.arr [], rest.tail)
       else
         match parseVal fuel rest with
         | some (v, r1) =>
           match parseArrTail fuel r1 with
           | some (vs, r2) => some (Json.arr (v :: vs), r2)
           | none => none
         | none => none) := by
  simp [parseVal]

theorem parseVal_lbrace (fuel : Nat) (rest : List Char) :
    parseVal (fuel + 1) ('{' :: rest) =
      (if headIs rest '}' then some (Json.obj [], rest.tail)
       else
         match parseMember fuel rest with
         | some (kv, r1) =>
           match parseObjTail fuel r1 with
           | some (kvs, r2) => some (Json.obj (kv :: kvs), r2)
           | none => none
         | none => none) := by
  simp [parseVal]

theorem parseVal_head (fuel : Nat) (c : Char) (rest : List Char)
    (h1 : c ≠ 'n') (h2 : c ≠ 't') (h3 : c ≠ 'f') (h4 : c ≠ '"') (h5 : c ≠ '[')
    (h6 : c ≠ '{') :
    parseVal (fuel + 1) (c :: rest) =
      (parseNum (c :: rest)).map (fun p => (Json.num p.1, p.2)) := by
  simp [parseVal, h1, h2, h3, h4, h5, h6]

theorem parseArrTail_comma (fuel : Nat) (rest : List Char) :
    parseArrTail (fuel + 1) (',' :: rest) =
      (match parseVal fuel rest with
       | some (v, r1) =>
         match parseArrTail fuel r1 with
         | some (vs, r2) => some (v :: vs, r2)
         | none => none
       | none => none) := by
  simp [parseArrTail]

theorem parseMember_quote (fuel : Nat) (rest : List Char) :
    parseMember (fuel + 1) ('"' :: rest) =
      (match parseJStr [] rest with
       | some (k, r) =>
         if headIs r ':' then
           match parseVal fuel r.tail with
           | some (v, r2) => some ((⟨k⟩, v), r2)
           | none => none
         else none
       | none => none) := by
  simp [parseMember]

theorem parseObjTail_comma (fuel : Nat) (rest : List Char) :
    parseObjTail (fuel + 1) (',' :: rest) =
      (match parseMember fuel rest with
       | some (kv, r1) =>
         match parseObjTail fuel r1 with
         | some (kvs, r2) => some (kv :: kvs, r2)
         | none => none
       | none => none) := by
  simp [parseObjTail]

theorem parse_render_all : ∀ fuel : Nat,
    (∀ v rest, jfuel v ≤ fuel → tailOk rest = true →
      parseVal fuel (render v ++ rest) = some (v, rest)) ∧
    (∀ vs rest, tfuel vs ≤ fuel → tailOk rest = true →
      parseArrTail fuel (renderArrTail vs ++ rest) = some (vs, rest)) ∧
    (∀ kv rest, mfuel kv ≤ fuel → tailOk rest = true →
      parseMember fuel (renderMember kv ++ rest) = some (kv, rest)) ∧
    (∀ kvs rest, ofuel kvs ≤ fuel → tailOk rest = true →
      parseObjTail fuel (renderObjTail kvs ++ rest) = some (kvs, rest)) := by
  intro fuel
  induction fuel with
  | zero =>
    refine ⟨fun v _ hf _ => absurd hf (by have := jfuel_pos v; omega),
            fun vs _ hf _ => absurd hf (by have := tfuel_pos vs; omega),
            fun kv _ hf _ => absurd hf (by have := mfuel_pos kv; omega),
            fun kvs _ hf _ => absurd hf (by have := ofuel_pos kvs; omega)⟩
  | succ fuel ih =>
    obtain ⟨ihV, ihT, ihM, ihO⟩ := ih
    refine ⟨?_, ?_, ?_, ?_⟩
    · intro v rest hf ht
      cases v with
      | null =>
        simp only [render, List.cons_append, List.nil_append]
        rw [parseVal_null_lit]
        simp [dropLit]
      | bool b =>
        cases b <;>
          (simp only [render, List.cons_append, List.nil_append]
           first
             | rw [parseVal_true_lit]
             | rw [parseVal_false_lit]) <;>
          simp [dropLit]
      | num n =>
        obtain ⟨d, ds, hds, hd⟩ := renderInt_shape n
        obtain ⟨h1, h2, h3, h4, h5, h6⟩ := numHead_ne hd
        simp only [render]
        rw [hds]
        simp only [List.cons_append]
        rw [parseVal_head fuel d (ds ++ rest) h1 h2 h3 h4 h5 h6]
        rw [← List.cons_append, ← hds, parseNum_renderInt n rest ht]
        simp
      | str s =>
        simp only [render, List.cons_append]
        rw [parseVal_quote]
        rw [parseJStr_render s.data [] rest]
        simp [strMk_data]
      | arr xs =>
        cases xs with
        | nil =>
          simp only [render, List.cons_append, List.nil_append]
          rw [parseVal_lbrack]
          simp [headIs]
        | cons v vs =>
          have hfv : jfuel v ≤ fuel := by
            simp only [jfuel] at hf; have := tfuel_pos vs; omega
          have hft : tfuel vs ≤ fuel := by
            simp only [jfuel] at hf; have := jfuel_pos v; omega
          simp only [render, List.cons_append, List.append_assoc]
          rw [parseVal_lbrack]
          obtain ⟨d, ds, hds, hdr⟩ := render_shape v
          have hh : headIs (render v ++ (renderArrTail vs ++ rest)) ']' = false := by
            rw [headIs_append _ _ (by rw [hds]; simp), hds]
            simp [headIs, hdr]
          rw [hh]
          simp only [Bool.false_eq_true, if_false]
          simp only [ihV v (renderArrTail vs ++ rest) hfv (tailOk_arrTail vs rest),
            ihT vs rest hft ht]
      | obj xs =>
        cases xs with
        | nil =>
          simp only [render, List.cons_append, List.nil_append]
          rw [parseVal_lbrace]
          simp [headIs]
        | cons kv kvs =>
          have hfm : mfuel kv ≤ fuel := by
            simp only [jfuel] at hf; have := ofuel_pos kvs; omega
          have hfo : ofuel kvs ≤ fuel := by
            simp only [jfuel] at hf; have := mfuel_pos kv; omega
          simp only [render, List.cons_append, List.append_assoc]
          rw [parseVal_lbrace]
          have hh : headIs (renderMember kv ++ (renderObjTail kvs ++ rest)) '}' = false := by
            obtain ⟨k, v⟩ := kv
            simp [renderMember, headIs]
          rw [hh]
          simp only [Bool.false_eq_true, if_false]
          simp only [ihM kv (renderObjTail kvs ++ rest) hfm (tailOk_objTail kvs rest),
            ihO kvs rest hfo ht]
    · intro vs rest hf ht
      cases vs with
      | nil =>
        simp only [renderArrTail, List.cons_append, List.nil_append]
        simp [parseArrTail]
      | cons v vs =>
        have hfv : jfuel v ≤ fuel := by
          simp only [tfuel] at hf; have := tfuel_pos vs; omega
        have hft : tfuel vs ≤ fuel := by
          simp only [tfuel] at hf; have := jfuel_pos v; omega
        simp only [renderArrTail, List.cons_append, List.append_assoc]
        rw [parseArrTail_comma]
        simp only [ihV v (renderArrTail vs ++ rest) hfv (tailOk_arrTail vs rest),
          ihT vs rest hft ht]
    · intro kv rest hf ht
      obtain ⟨k, v⟩ := kv
      have hfv : jfuel v ≤ fuel := by simp only [mfuel] at hf; omega
      simp only [renderMember, List.cons_append, List.append_assoc]
      rw [parseMember_quote]
      rw [parseJStr_render k.data [] (':' :: (render v ++ rest))]
      simp [headIs, List.tail_cons, ihV v rest hfv ht, strMk_data]
    · intro kvs rest hf ht
      cases kvs with
      | nil =>
        simp only [renderObjTail, List.cons_append, List.nil_append]
        simp [parseObjTail]
      | cons kv kvs =>
        have hfm : mfuel kv ≤ fuel := by
          simp only [ofuel] at hf; have := ofuel_pos kvs; omega
        have hfo : ofuel kvs ≤ fuel := by
          simp only [ofuel] at hf; have := mfuel_pos kv; omega
        simp only [renderObjTail, List.cons_append, List.append_assoc]
        rw [parseObjTail_comma]
        simp only [ihM kv (renderObjTail kvs ++ rest) hfm (tailOk_objTail kvs rest),
          ihO kvs rest hfo ht]

theorem parse_stringify (v : Json) : parse (stringify v) = some v := by
  unfold parse
  have hdata : (stringify v).data = render v := rfl
  rw [hdata]
  have h := (parse_render_all (render v).length).1 v [] (jfuel_le_len v) rfl
  rw [List.append_nil] at h
  rw [h]

theorem render_ne_nil (v : Json) : render v ≠ [] := by
  obtain ⟨d, ds, hds, _⟩ := render_shape v
  rw [hds]
  simp

theorem stringify_ne_empty (v : Json) : stringify v ≠ "" := by
  intro h
  have : (stringify v).data = ("" : String).data := by rw [h]
  have hd : render v = [] := this
  exact render_ne_nil v hd

/-! ## Browser-local state: `localStorage` and in-page events -/

/-- `localStorage`: a flat map from string keys to string values. -/
abbrev Store := List (String × String)

/-- `localStorage.getItem`. -/
def Store.get : Store → String → Option String
  | [], _ => none
  | (k', v) :: t, k => if k' = k then some v else Store.get t k

/-- `localStorage.removeItem`. -/
def Store.remove : Store → String → Store
  | [], _ => []
  | (k', v) :: t, k => if k' = k then Store.remove t k else (k', v) :: Store.remove t k

/-- `localStorage.setItem`. -/
def Store.set (s : Store) (k v : String) : Store := (k, v) :: Store.remove s k

theorem Store.get_set_self (s : Store) (k v : String) :
    Store.get (Store.set s k v) k = some v := by
  simp [Store.set, Store.get]

theorem Store.get_remove_self (s : Store) (k : String) :
    Store.get (Store.remove s k) k = none := by
  induction s with
  | nil => rfl
  | cons p t iht =>
    obtain ⟨k', v⟩ := p
    by_cases h : k' = k <;> simp [Store.remove, Store.get, h, iht]

theorem Store.get_remove_ne (s : Store) (k k' : String) (h : k ≠ k') :
    Store.get (Store.remove s k) k' = Store.get s k' := by
  induction s with
  | nil => rfl
  | cons p t iht =>
    obtain ⟨k0, v⟩ := p
    by_cases h0 : k0 = k
    · subst h0
      simp [Store.remove, Store.get, h, iht]
    · by_cases h1 : k0 = k' <;> simp [Store.remove, Store.get, h0, h1, Ne.symm h, iht]

/-- In-page events dispatched on `window` (`CustomEvent` broadcasts). -/
inductive Event where
  | storageUpdated (detail : Json)
  | storageCleared
  | authUserUpdated
  | authUserCleared
  | profileUpdated

/-! ## Local Cache Store (`StorageManager`, src/unnamed/part_000) -/

/-- The single storage key the unified store uses. -/
def StorageManager.KEY : String := "mindspend_unified_analysis"

/-- `StorageManager.save(data)`: stores `JSON.stringify(data)` under `KEY`
and dispatches a `storageUpdated` event carrying `data`.  (A quota failure
would be logged and swallowed; the model covers the successful write, which
is the case §8 of the spec quantifies over.) -/
def StorageManager.save (data : Json) (s : Store) : Store × List Event :=
  (Store.set s StorageManager.KEY (stringify data), [Event.storageUpdated data])

/-- `StorageManager.load()`: reads the raw string under `KEY`; a missing key
or falsy string yields `null`, otherwise the value is `JSON.parse`d (a parse
failure is caught and also yields `null` — both are `none` here). -/
def StorageManager.load (s : Store) : Option Json :=
  match Store.get s StorageManager.KEY with
  | none => none
  | some raw => if raw = "" then none else parse raw

/-- `StorageManager.clear()`. -/
def StorageManager.clear (s : Store) : Store × List Event :=
  (Store.remove s StorageManager.KEY, [Event.storageCleared])

/-- A platform `storage` event as delivered to the listener registered by
part_000 (fired by the browser in other tabs; `key`/`newValue` may be null). -/
structure StorageEvent where
  key : Option String
  newValue : Option String

/-- `JSON.parse(e.newValue)` where `e.newValue` may be `null`
(JavaScript coerces `null` to the string `"null"`, which parses to `null`). -/
def parseNullable (o : Option String) : Option Json :=
  match o with
  | none => some Json.null
  | some s => parse s

/-- The `window.addEventListener('storage', ...)` handler of part_000: for a
change to the store's own key it re-broadcasts one internal `storageUpdated`
event carrying the parsed new value; other keys are ignored.  The handler has
no try/catch, so a `JSON.parse` failure would escape (`Except.error`). -/
def StorageManager.storageListener (e : StorageEvent) : Except String (List Event) :=
  if e.key = some StorageManager.KEY then
    match parseNullable e.newValue with
    | some j => Except.ok [Event.storageUpdated j]
    | none => Except.error "SyntaxError"
  else Except.ok []

/-! ## Domain model and the collaborator oracle -/

/-- A session user as returned by the collaborator's get-user endpoint. -/
structure User where
  id : String
  email : String

/-- A row of the `profiles` table.  Optional fields may be null; the empty
string and null are both falsy in the JavaScript truthiness checks below. -/
structure Profile where
  id : String
  email : String
  username : Option String
  first_name : Option String
  last_name : Option String

/-- A collaborator-reported database error (`{code, message}`). -/
structure PgErr where
  code : String
  message : String

/-- The fields `API.addMetric` reads from its `metricData` argument.  The
metric value is passed through opaquely (a JSON scalar in the source). -/
structure MetricData where
  category : String
  value : Json
  description : String

/-- The row shape `API.addMetric` inserts into `metrics`. -/
structure MetricInsert where
  user_id : String
  category : String
  value : Json
  description : String

/-- The row shape `AuthManager.register` inserts into `profiles`. -/
structure ProfileIns where
  id : String
  email : String
  username : String
  firstName : String
  lastName : String

/-- One collaborator (network/SDK) call, with the arguments that determine
its server-side scope. -/
inductive CollabCall where
  | authGetUser
  | authGetSession
  | authSignUp (email password : String)
  | authSignIn (email password : String)
  | authSignOut
  | authUpdateUser (password : String)
  | adminDeleteUser (uid : String)
  | dbSelectProfile (uid : String)
  | dbInsertProfile (row : ProfileIns)
  | dbUpdateProfile (uid : String) (payload : Json)
  | dbSelectMetrics (userId : String)
  | dbInsertMetric (row : MetricInsert)
  | dbDeleteMetric (metricId : String) (userId : String)

/-- The collaborator oracle: one response per endpoint.  `Except.error m`
models a rejected promise whose exception message is `m`; `Except.ok` carries
the resolved `{data, error}` shape.  `sbInit` is whether `window.supabase`
is non-null.  The count in `deleteMetricR` is the number of rows the delete
matched server-side — the response body the client sees does not include it. -/
structure Collab where
  sbInit : Bool
  getUserR : Except String (Option User × Option String)
  getSessionR : Except String (Option Unit × Option String)
  signUpR : Except String (Option User × Option String)
  signInR : Except String (Option User × Option String)
  signOutR : Except String (Option String)
  updateUserR : Except String (Option String)
  adminDeleteR : Except String (Option String)
  selectProfileR : Except String (Option Profile × Option PgErr)
  insertProfileR : Except String (Option PgErr)
  updateProfileR : Except String (Option PgErr)
  selectMetricsR : Except String (List Json × Option PgErr)
  insertMetricR : Except String (List Json × Option PgErr)
  deleteMetricR : Except String (Option PgErr × Nat)

/-- Payload of a successful facade result. -/
inductive ApiData where
  | user (u : User)
  | userAndProfile (u : User) (p : Profile)
  | profile (p : Profile)
  | rows (rs : List Json)
  | row (r : Option Json)

/-- The uniform result envelope `{success, data?, error?, requiresLogin?}`.
An absent `requiresLogin` is `false`; an absent `error`/`data` is `none`. -/
structure Envelope where
  success : Bool
  error : Option String
  requiresLogin : Bool
  data : Option ApiData

/-- Envelope for a caught failure with message `m`. -/
def envFail (m : String) : Envelope :=
  { success := false, error := some m, requiresLogin := false, data := none }

/-- Plain `{success:true}` envelope. -/
def envOk : Envelope :=
  { success := true, error := none, requiresLogin := false, data := none }

/-- JavaScript `String.prototype.startsWith` on character lists. -/
def startsWithL : List Char → List Char → Bool
  | [], _ => true
  | _ :: _, [] => false
  | a :: as, b :: bs => a = b && startsWithL as bs

/-- JavaScript substring containment (`hay.includes(needle)`). -/
def hasSub (needle : List Char) : List Char → Bool
  | [] => needle.isEmpty
  | c :: rest => startsWithL needle (c :: rest) || hasSub needle rest

/-- `hay.includes(needle)` on strings. -/
def strIncludes (hay needle : String) : Bool := hasSub needle.data hay.data

/-- `String.prototype.toLowerCase` (ASCII, as used on the error messages). -/
def lowerStr (s : String) : String := ⟨s.data.map Char.toLower⟩

/-- `email.split('@')[0]`: the local part of an email address. -/
def localPart (e : String) : String := ⟨e.data.takeWhile (fun c => !(c = '@'))⟩

/-- JavaScript truthiness of a nullable string (`null` and `''` are falsy). -/
def jsTruthy (o : Option String) : Bool :=
  match o with
  | none => false
  | some s => !(s = "")

/-! ## Auth Session Manager (src/frontend/utils/auth.js) -/

/-- `AuthManager.getCurrentUser()`: `sb.auth.getUser()`; a thrown/reported
error is caught and yields `null`.  Returns the user (possibly null) with the
issued collaborator calls. -/
def AuthManager.getCurrentUser (c : Collab) : Option User × List CollabCall :=
  if !c.sbInit then (none, [])
  else
    match c.getUserR with
    | Except.error _ => (none, [CollabCall.authGetUser])
    | Except.ok (u, e) =>
      match e with
      | some _ => (none, [CollabCall.authGetUser])
      | none => (u, [CollabCall.authGetUser])

/-- `AuthManager.getCurrentProfile()`: reads the caller's own profile row
(`eq('id', user.id).single()`).  A `PGRST116` (no row) and any other error
are both reported as `null` to the caller. -/
def AuthManager.getCurrentProfile (c : Collab) : Option Profile × List CollabCall :=
  match AuthManager.getCurrentUser c with
  | (none, t) => (none, t)
  | (some u, t) =>
    if !c.sbInit then (none, t)
    else
      match c.selectProfileR with
      | Except.error _ => (none, t ++ [CollabCall.dbSelectProfile u.id])
      | Except.ok (d, e) =>
        match e with
        | some _ => (none, t ++ [CollabCall.dbSelectProfile u.id])
        | none => (d, t ++ [CollabCall.dbSelectProfile u.id])

/-- Engine-style message of the `TypeError` thrown by `user.id` when the
sign-up response carries no user. -/
def nullUserMsg : String := "Cannot read properties of null (reading 'id')"

/-- The user-facing message `AuthManager.register` derives from a profile
creation error. -/
def registerProfileMsg (m : String) : String :=
  if strIncludes m "row-level security" then
    "Profile creation blocked by database policy. This is likely an RLS configuration issue. Check frontend/RLS_COMPLETE_FIX.md for solution."
  else if strIncludes m "duplicate" then "This email is already registered."
  else m

/-- `AuthManager.register(email, password, username, firstName, lastName)`
from src/frontend/utils/auth.js: sign-up, session probe (the 1.5 s wait is
timing-only), profile insert; on profile failure a compensating
`auth.admin.deleteUser` is attempted (its own failure is swallowed) and the
profile-specific message is returned.  The function never touches local
storage, so the store passes through unchanged. -/
def AuthManager.register (c : Collab) (email password username firstName lastName : String)
    (s : Store) : Envelope × Store × List CollabCall :=
  if !c.sbInit then (envFail "Supabase not initialized", s, [])
  else
    match c.signUpR with
    | Except.error m => (envFail m, s, [CollabCall.authSignUp email password])
    | Except.ok (uo, se) =>
      match se with
      | some m => (envFail m, s, [CollabCall.authSignUp email password])
      | none =>
        match uo with
        | none => (envFail nullUserMsg, s, [CollabCall.authSignUp email password])
        | some u =>
          match c.getSessionR with
          | Except.error m =>
            (envFail m, s, [CollabCall.authSignUp email password, CollabCall.authGetSession])
          | Except.ok _ =>
            let row : ProfileIns :=
              { id := u.id, email := email, username := username,
                firstName := firstName, lastName := lastName }
            let t1 := [CollabCall.authSignUp email password, CollabCall.authGetSession,
              CollabCall.dbInsertProfile row]
            match c.insertProfileR with
            | Except.error m => (envFail m, s, t1)
            | Except.ok (some pe) =>
              (envFail (registerProfileMsg pe.message), s,
                t1 ++ [CollabCall.adminDeleteUser u.id])
            | Except.ok none =>
              ({ success := true, error := none, requiresLogin := false,
                 data := some (ApiData.user u) }, s, t1)

/-- `AuthManager.clearCurrentUser()`: removes `auth_user` and `userProfile`
and dispatches `authUserCleared`. -/
def AuthManager.clearCurrentUser (s : Store) : Store × List Event :=
  (Store.remove (Store.remove s "auth_user") "userProfile", [Event.authUserCleared])

/-- `AuthManager.logout()`: unconditionally calls `sb.auth.signOut()`;
a reported error is re-thrown and caught, returning a failure envelope
without touching the cache; on success the cache keys are cleared and
`authUserCleared` is dispatched (once by `clearCurrentUser`, once by
`logout` itself). -/
def AuthManager.logout (c : Collab) (s : Store) :
    Envelope × Store × List CollabCall × List Event :=
  if !c.sbInit then (envFail "Supabase not initialized", s, [], [])
  else
    match c.signOutR with
    | Except.error m => (envFail m, s, [CollabCall.authSignOut], [])
    | Except.ok (some m) => (envFail m, s, [CollabCall.authSignOut], [])
    | Except.ok none =>
      let cl := AuthManager.clearCurrentUser s
      (envOk, cl.1, [CollabCall.authSignOut], cl.2 ++ [Event.authUserCleared])

/-- `AuthManager.getCurrentUserLocal()`: reads `auth_user` from local
storage; a missing/empty value or a parse failure yields `null`, and a
stored `"null"` parses to `null` as well. -/
def AuthManager.getCurrentUserLocal (s : Store) : Option Json :=
  match Store.get s "auth_user" with
  | none => none
  | some raw =>
    if raw = "" then none
    else
      match parse raw with
      | none => none
      | some Json.null => none
      | some j => some j

/-- `AuthManager.checkAuth()`: the client is authenticated iff
`getCurrentUserLocal()` is non-null. -/
def AuthManager.checkAuth (s : Store) : Bool :=
  (AuthManager.getCurrentUserLocal s).isSome

/-- The keyword-based remapping `AuthManager.changePassword` applies to the
(defaulted) message of a failed password-update step. -/
def cpUpdateMap (b : String) : String :=
  if strIncludes (lowerStr b) "same" then
    "New password must be different from your current password"
  else if strIncludes (lowerStr b) "password" then
    "Password update failed. Please ensure your password meets all requirements."
  else if strIncludes (lowerStr b) "network" || strIncludes (lowerStr b) "connection" then
    "Connection error. Please check your internet and try again."
  else b

/-- The message mapping `AuthManager.changePassword` applies to an error of
the password-update step (`updateError.message || 'Failed to update
password'`, then the keyword remapping). -/
def cpUpdateMsg (m : String) : String :=
  cpUpdateMap (if m = "" then "Failed to update password" else m)

/-- The mapping the outer catch of `AuthManager.changePassword` applies to a
thrown exception's message. -/
def cpCatchMsg (m : String) : String :=
  let base := if m = "" then "An unexpected error occurred" else m
  if strIncludes (lowerStr base) "network" || strIncludes (lowerStr base) "fetch" then
    "Network connection error. Please check your internet connection."
  else base

/-- The constant error `AuthManager.changePassword` reports when the
verification sign-in with the current password fails. -/
def cpVerifMsg : String := "Current password is incorrect. Please try again."

/-- `AuthManager.changePassword(current, new)` from
src/frontend/utils/auth.js: requires a user from `auth.getUser()`, verifies
`current` by `signInWithPassword`, and only then calls `auth.updateUser`. -/
def AuthManager.changePassword (c : Collab) (currentPassword newPassword : String) :
    Envelope × List CollabCall :=
  if !c.sbInit then (envFail "Supabase not initialized", [])
  else
    match c.getUserR with
    | Except.error m => (envFail (cpCatchMsg m), [CollabCall.authGetUser])
    | Except.ok (uo, ue) =>
      match ue, uo with
      | some _, _ =>
        ({ success := false, error := some "Not authenticated. Please login again.",
           requiresLogin := true, data := none }, [CollabCall.authGetUser])
      | none, none =>
        ({ success := false, error := some "Not authenticated. Please login again.",
           requiresLogin := true, data := none }, [CollabCall.authGetUser])
      | none, some u =>
        let t1 := [CollabCall.authGetUser, CollabCall.authSignIn u.email currentPassword]
        match c.signInR with
        | Except.error m => (envFail (cpCatchMsg m), t1)
        | Except.ok (_, some _) =>
          ({ success := false, error := some cpVerifMsg, requiresLogin := false,
             data := none }, t1)
        | Except.ok (_, none) =>
          let t2 := t1 ++ [CollabCall.authUpdateUser newPassword]
          match c.updateUserR with
          | Except.error m => (envFail (cpCatchMsg m), t2)
          | Except.ok (some m) => (envFail (cpUpdateMsg m), t2)
          | Except.ok none => (envOk, t2)

/-- `AuthManager.updateProfile(profileData)`: checks the client, re-derives
the user from the session, and updates the caller's own profile row.  The
update payload is passed through opaquely. -/
def AuthManager.updateProfile (c : Collab) (pd : Json) : Envelope × List CollabCall :=
  if !c.sbInit then (envFail "Supabase not initialized", [])
  else
    match AuthManager.getCurrentUser c with
    | (none, t) =>
      ({ success := false, error := some "Not authenticated", requiresLogin := true,
         data := none }, t)
    | (some u, t) =>
      let t1 := t ++ [CollabCall.dbUpdateProfile u.id pd]
      match c.updateProfileR with
      | Except.error m => (envFail m, t1)
      | Except.ok (some e) => (envFail e.message, t1)
      | Except.ok none => (envOk, t1)

/-! ## Auth Session Manager variant (src/unnamed/part_001)

`getCurrentUser`/`getCurrentProfile`/`logout`/`updateProfile` in part_001
are textually identical to the auth.js versions above and are reused;
`register` and `changePassword` differ and are embedded separately. -/

/-- `AuthManager.register` from src/unnamed/part_001: sign-up then profile
insert; a profile error is returned verbatim with NO compensating deletion
of the created identity. -/
def AuthManagerAlt.register (c : Collab) (email password username firstName lastName : String)
    (s : Store) : Envelope × Store × List CollabCall :=
  if !c.sbInit then (envFail "Supabase not initialized", s, [])
  else
    match c.signUpR with
    | Except.error m => (envFail m, s, [CollabCall.authSignUp email password])
    | Except.ok (uo, se) =>
      match se with
      | some m => (envFail m, s, [CollabCall.authSignUp email password])
      | none =>
        match uo with
        | none => (envFail nullUserMsg, s, [CollabCall.authSignUp email password])
        | some u =>
          let row : ProfileIns :=
            { id := u.id, email := email, username := username,
              firstName := firstName, lastName := lastName }
          let t1 := [CollabCall.authSignUp email password, CollabCall.dbInsertProfile row]
          match c.insertProfileR with
          | Except.error m => (envFail m, s, t1)
          | Except.ok (some pe) => (envFail pe.message, s, t1)
          | Except.ok none =>
            ({ success := true, error := none, requiresLogin := false,
               data := some (ApiData.user u) }, s, t1)

/-- `AuthManager.changePassword` from src/unnamed/part_001: uses
`getCurrentUser()`, verifies the current password by re-authentication
(constant error `'Current password is incorrect'` on failure), then updates. -/
def AuthManagerAlt.changePassword (c : Collab) (currentPassword newPassword : String) :
    Envelope × List CollabCall :=
  if !c.sbInit then (envFail "Supabase not initialized", [])
  else
    match AuthManager.getCurrentUser c with
    | (none, t) =>
      ({ success := false, error := some "Not authenticated", requiresLogin := true,
         data := none }, t)
    | (some u, t) =>
      let t1 := t ++ [CollabCall.authSignIn u.email currentPassword]
      match c.signInR with
      | Except.error m => (envFail m, t1)
      | Except.ok (_, some _) =>
        ({ success := false, error := some "Current password is incorrect",
           requiresLogin := false, data := none }, t1)
      | Except.ok (_, none) =>
        let t2 := t1 ++ [CollabCall.authUpdateUser newPassword]
        match c.updateUserR with
        | Except.error m => (envFail m, t2)
        | Except.ok (some m) => (envFail m, t2)
        | Except.ok none => (envOk, t2)

/-! ## API Facade (src/frontend/utils/rls-debug.js, `window.API`) -/

/-- `API.getProfile()`: requires a session user, then the profile; note the
unauthenticated envelope carries NO `requiresLogin` flag here. -/
def API.getProfile (c : Collab) : Envelope × List CollabCall :=
  match AuthManager.getCurrentUser c with
  | (none, t) =>
    ({ success := false, error := some "Not authenticated", requiresLogin := false,
       data := none }, t)
  | (some u, t) =>
    match AuthManager.getCurrentProfile c with
    | (none, t2) =>
      ({ success := false, error := some "Profile not found", requiresLogin := false,
         data := none }, t ++ t2)
    | (some p, t2) =>
      ({ success := true, error := none, requiresLogin := false,
         data := some (ApiData.userAndProfile u p) }, t ++ t2)

/-- `API.getUserProfile()`: alias that skips the explicit user check and
reports a missing profile as `'Profile not found'`. -/
def API.getUserProfile (c : Collab) : Envelope × List CollabCall :=
  match AuthManager.getCurrentProfile c with
  | (none, t) =>
    ({ success := false, error := some "Profile not found", requiresLogin := false,
       data := none }, t)
  | (some p, t) =>
    ({ success := true, error := none, requiresLogin := false,
       data := some (ApiData.profile p) }, t)

/-- `API.updateUserProfile(profileData)`: passthrough to
`AuthManager.updateProfile` (the facade's catch is unreachable because the
manager already returns envelopes). -/
def API.updateUserProfile (c : Collab) (pd : Json) : Envelope × List CollabCall :=
  AuthManager.updateProfile c pd

/-- `API.getMetrics()`: requires a session user, then selects from
`metrics` filtered by `eq('user_id', user.id)`. -/
def API.getMetrics (c : Collab) : Envelope × List CollabCall :=
  match AuthManager.getCurrentUser c with
  | (none, t) =>
    ({ success := false, error := some "Not authenticated", requiresLogin := true,
       data := none }, t)
  | (some u, t) =>
    if !c.sbInit then (envFail "Supabase not initialized", t)
    else
      let t1 := t ++ [CollabCall.dbSelectMetrics u.id]
      match c.selectMetricsR with
      | Except.error m => (envFail m, t1)
      | Except.ok (_, some e) => (envFail e.message, t1)
      | Except.ok (rows, none) =>
        ({ success := true, error := none, requiresLogin := false,
           data := some (ApiData.rows rows) }, t1)

/-- `API.addMetric(metricData)`: requires a session user; inserts a row
whose `user_id` is the session user's id and whose remaining fields are
read from `metricData`; returns `data[0]` of the insert response. -/
def API.addMetric (c : Collab) (md : MetricData) : Envelope × List CollabCall :=
  match AuthManager.getCurrentUser c with
  | (none, t) =>
    ({ success := false, error := some "Not authenticated", requiresLogin := true,
       data := none }, t)
  | (some u, t) =>
    if !c.sbInit then (envFail "Supabase not initialized", t)
    else
      let row : MetricInsert :=
        { user_id := u.id, category := md.category, value := md.value,
          description := md.description }
      let t1 := t ++ [CollabCall.dbInsertMetric row]
      match c.insertMetricR with
      | Except.error m => (envFail m, t1)
      | Except.ok (_, some e) => (envFail e.message, t1)
      | Except.ok (rows, none) =>
        ({ success := true, error := none, requiresLogin := false,
           data := some (ApiData.row rows.head?) }, t1)

/-- `API.deleteMetric(metricId)`: requires a session user; issues a delete
filtered by `eq('id', metricId).eq('user_id', user.id)` and returns
`{success:true}` whenever the collaborator reports no error — the response
carries no row count, so a zero-row delete is indistinguishable. -/
def API.deleteMetric (c : Collab) (metricId : String) : Envelope × List CollabCall :=
  match AuthManager.getCurrentUser c with
  | (none, t) =>
    ({ success := false, error := some "Not authenticated", requiresLogin := true,
       data := none }, t)
  | (some u, t) =>
    if !c.sbInit then (envFail "Supabase not initialized", t)
    else
      let t1 := t ++ [CollabCall.dbDeleteMetric metricId u.id]
      match c.deleteMetricR with
      | Except.error m => (envFail m, t1)
      | Except.ok (some e, _) => (envFail e.message, t1)
      | Except.ok (none, _) => (envOk, t1)

/-! ## Navigation Component (src/frontend/utils/navigation.js) -/

/-- The navigation state after `init`: the fetched session user and the
pre-resolved display name (`this.displayName`, `undefined` = `none`). -/
structure NavState where
  user : Option User
  displayName : Option String

/-- `Navigation.loadUserProfileNameData()`, evaluated with the value `user`
that `this.user` holds at call time.  Resolution order: cached display
fields, then (only if `this.user` is non-null) a profile fetch with its
field fallbacks, then the email local part, then `'Guest'`.  A profile with
no usable field leaves `this.displayName` unset (`none`). -/
def Navigation.loadUserProfileNameData (c : Collab) (s : Store) (user : Option User) :
    Option String :=
  let f := Store.get s "mindspend_firstName"
  let l := Store.get s "mindspend_lastName"
  let un := Store.get s "mindspend_username"
  if jsTruthy f && jsTruthy l then some (f.getD "" ++ " " ++ l.getD "")
  else if jsTruthy f then f
  else if jsTruthy un then un
  else
    match user with
    | some u =>
      match (AuthManager.getCurrentProfile c).1 with
      | some p =>
        if jsTruthy p.first_name && jsTruthy p.last_name then
          some (p.first_name.getD "" ++ " " ++ p.last_name.getD "")
        else if jsTruthy p.first_name then p.first_name
        else if jsTruthy p.username then p.username
        else if !(u.email = "") then some (localPart u.email)
        else none
      | none => if !(u.email = "") then some (localPart u.email) else some "Guest"
    | none => some "Guest"

/-- `Navigation.init()`: resolves the display name BEFORE fetching the
current user (`this.user` is still `null` during name resolution), then
fetches the user for the auth state of the injected navigation. -/
def Navigation.init (c : Collab) (s : Store) : NavState :=
  let displayName := Navigation.loadUserProfileNameData c s none
  let user := (AuthManager.getCurrentUser c).1
  { user := user, displayName := displayName }

/-- The `userName` computed by `Navigation.generateNavHTML()`:
`this.displayName || (isAuth && this.user && this.user.email ?
this.user.email.split('@')[0] : 'Guest')`. -/
def Navigation.userName (st : NavState) : String :=
  let fallback :=
    match st.user with
    | some u => if !(u.email = "") then localPart u.email else "Guest"
    | none => "Guest"
  match st.displayName with
  | some d => if d = "" then fallback else d
  | none => fallback

/-! ## Concrete fixtures -/

/-- The session user of the spec's concrete scenarios. -/
def uBob : User := { id := "u1", email := "bob@example.com" }

/-- Oracle: client initialized, no active session, benign defaults
everywhere else. -/
def cNoSession : Collab :=
  { sbInit := true
    getUserR := Except.ok (none, none)
    getSessionR := Except.ok (none, none)
    signUpR := Except.ok (none, none)
    signInR := Except.ok (none, none)
    signOutR := Except.ok none
    updateUserR := Except.ok none
    adminDeleteR := Except.ok none
    selectProfileR := Except.ok (none, none)
    insertProfileR := Except.ok none
    updateProfileR := Except.ok none
    selectMetricsR := Except.ok ([], none)
    insertMetricR := Except.ok ([], none)
    deleteMetricR := Except.ok (none, 0) }

/-- Oracle: authenticated as `uBob`, no profile row (`PGRST116`). -/
def cBob : Collab :=
  { cNoSession with
    getUserR := Except.ok (some uBob, none)
    selectProfileR :=
      Except.ok (none, some { code := "PGRST116", message := "no rows returned" }) }

/-- Oracle: sign-out reports an error. -/
def cSignOutFails : Collab :=
  { cNoSession with signOutR := Except.ok (some "Network error") }

/-- Oracle: authenticated, but re-authentication with the supplied current
password fails. -/
def cWrongPw : Collab :=
  { cBob with signInR := Except.ok (none, some "Invalid login credentials") }

/-- Oracle: sign-up succeeds, profile creation is rejected by policy. -/
def cRegProfFail : Collab :=
  { cNoSession with
    signUpR := Except.ok (some uBob, none)
    insertProfileR :=
      Except.ok (some { code := "42501", message := "permission denied for table profiles" }) }

/-- Oracle: authenticated, delete matched zero rows, no error reported. -/
def cDelZero : Collab :=
  { cBob with deleteMetricR := Except.ok (none, 0) }

/-- A populated cache holding every identity, profile and display-field key. -/
def s6 : Store :=
  [("auth_user", "1"), ("userProfile", "2"), ("currentUser", "3"),
   ("mindspend_firstName", "Bob"), ("mindspend_lastName", "Smith"),
   ("mindspend_username", "bob")]

/-! ## Claim theorems -/

/-- Claim C2 (confirmed): for every JSON-serializable value `v`, a
`StorageManager.save(v)` followed by `StorageManager.load()` in the same tab
returns a value deep-equal to `v`. -/
theorem claim2_save_load_roundtrip (v : Json) (s : Store) :
    StorageManager.load (StorageManager.save v s).1 = some v := by
  simp [StorageManager.load, StorageManager.save, Store.get_set_self,
    stringify_ne_empty v, parse_stringify v]

/-- Claim C8 (confirmed): a platform storage-change notification for the
store's own key (carrying the serialized new value written by the other
tab's `save`) makes the listener emit exactly one internal `storageUpdated`
broadcast carrying that value, and a notification for any other key emits
zero broadcasts. -/
theorem claim8_storage_listener (e e' : StorageEvent) (v : Json)
    (hk : e.key = some StorageManager.KEY)
    (hv : e.newValue = some (stringify v))
    (hk' : e'.key ≠ some StorageManager.KEY) :
    StorageManager.storageListener e = Except.ok [Event.storageUpdated v] ∧
    StorageManager.storageListener e' = Except.ok [] := by
  constructor
  · simp [StorageManager.storageListener, hk, hv, parseNullable, parse_stringify v]
  · simp [StorageManager.storageListener, hk']

/-- Witness for C8 at a concrete event pair. -/
theorem claim8_witness :
    StorageManager.storageListener
        { key := some StorageManager.KEY, newValue := some (stringify (Json.num 5)) } =
      Except.ok [Event.storageUpdated (Json.num 5)] ∧
    StorageManager.storageListener { key := some "theme", newValue := none } =
      Except.ok [] :=
  claim8_storage_listener _ _ (Json.num 5) rfl rfl (by decide)

/-- Claim C1 counterexample: with an initialized client and no active
session, `API.getProfile` returns `'Not authenticated'` WITHOUT
`requiresLogin:true`, and `API.getUserProfile` returns `'Profile not
found'` — so not every facade operation returns the claimed envelope. -/
theorem claim1_counterexample :
    (API.getProfile cNoSession).1.error = some "Not authenticated" ∧
    (API.getProfile cNoSession).1.requiresLogin ≠ true ∧
    (API.getUserProfile cNoSession).1.error ≠ some "Not authenticated" ∧
    (API.getUserProfile cNoSession).1.error = some "Profile not found" := by
  refine ⟨rfl, ?_, ?_, rfl⟩
  · rw [show (API.getProfile cNoSession).1.requiresLogin = false from rfl]
    simp
  · rw [show (API.getUserProfile cNoSession).1.error = some "Profile not found" from rfl]
    simp

/-- Claim C1 (amended): with an initialized client and no active session,
`getMetrics`, `addMetric`, `deleteMetric` and `updateUserProfile` return
`{success:false, error:'Not authenticated', requiresLogin:true}`,
`getProfile` returns the same envelope without the `requiresLogin` flag, and
`getUserProfile` returns `{success:false, error:'Profile not found'}`; each
issues only the collaborator session lookup (`auth.getUser`) and no
database call, and every failure is an envelope (nothing escapes). -/
theorem claim1_unauthenticated_envelopes (c : Collab) (pd : Json) (md : MetricData)
    (mid : String) (hsb : c.sbInit = true)
    (hu : c.getUserR = Except.ok (none, none)) :
    API.getProfile c =
      ({ success := false, error := some "Not authenticated", requiresLogin := false,
         data := none }, [CollabCall.authGetUser]) ∧
    API.getUserProfile c =
      ({ success := false, error := some "Profile not found", requiresLogin := false,
         data := none }, [CollabCall.authGetUser]) ∧
    API.updateUserProfile c pd =
      ({ success := false, error := some "Not authenticated", requiresLogin := true,
         data := none }, [CollabCall.authGetUser]) ∧
    API.getMetrics c =
      ({ success := false, error := some "Not authenticated", requiresLogin := true,
         data := none }, [CollabCall.authGetUser]) ∧
    API.addMetric c md =
      ({ success := false, error := some "Not authenticated", requiresLogin := true,
         data := none }, [CollabCall.authGetUser]) ∧
    API.deleteMetric c mid =
      ({ success := false, error := some "Not authenticated", requiresLogin := true,
         data := none }, [CollabCall.authGetUser]) := by
  refine ⟨?_, ?_, ?_, ?_, ?_, ?_⟩
  · simp [API.getProfile, AuthManager.getCurrentUser, hsb, hu]
  · simp [API.getUserProfile, AuthManager.getCurrentProfile, AuthManager.getCurrentUser,
      hsb, hu]
  · simp [API.updateUserProfile, AuthManager.updateProfile, AuthManager.getCurrentUser,
      hsb, hu]
  · simp [API.getMetrics, AuthManager.getCurrentUser, hsb, hu]
  · simp [API.addMetric, AuthManager.getCurrentUser, hsb, hu]
  · simp [API.deleteMetric, AuthManager.getCurrentUser, hsb, hu]

/-- Witness for the amended C1 at the spec's concrete `addMetric` scenario
(an unauthenticated `addMetric({category:'food', ...})`). -/
theorem claim1_witness :
    API.addMetric cNoSession
        { category := "food", value := Json.num 12, description := "lunch" } =
      ({ success := false, error := some "Not authenticated", requiresLogin := true,
         data := none }, [CollabCall.authGetUser]) :=
  (claim1_unauthenticated_envelopes cNoSession Json.null
    { category := "food", value := Json.num 12, description := "lunch" } "m1"
    rfl rfl).2.2.2.2.1

/-- Claim C3 counterexample: when the collaborator sign-out fails,
`logout()` returns a failure envelope and clears NOTHING (the cache is
untouched and no event is broadcast); and even on a successful sign-out the
display-field keys (`currentUser`, `mindspend_firstName`, `mindspend_lastName`,
`mindspend_username`) survive — only `auth_user` and `userProfile` are
removed. -/
theorem claim3_counterexample :
    (AuthManager.logout cSignOutFails s6).2.1 = s6 ∧
    (AuthManager.logout cSignOutFails s6).1.success = false ∧
    (AuthManager.logout cSignOutFails s6).2.2.2 = [] ∧
    Store.get (AuthManager.logout cNoSession s6).2.1 "currentUser" = some "3" ∧
    Store.get (AuthManager.logout cNoSession s6).2.1 "mindspend_firstName" = some "Bob" ∧
    Store.get (AuthManager.logout cNoSession s6).2.1 "mindspend_lastName" = some "Smith" ∧
    Store.get (AuthManager.logout cNoSession s6).2.1 "mindspend_username" = some "bob" :=
  ⟨rfl, rfl, rfl, rfl, rfl, rfl, rfl⟩

/-- Claim C3 (amended): on a successful collaborator sign-out, `logout()`
removes exactly `auth_user` and `userProfile` and broadcasts the
`authUserCleared` event (twice); when the collaborator sign-out fails
(reported error or rejection), `logout()` returns a failure envelope and
leaves the cache completely unchanged. -/
theorem claim3_logout_clearing (c : Collab) (s : Store) (hsb : c.sbInit = true) :
    (c.signOutR = Except.ok none →
      AuthManager.logout c s =
        (envOk, Store.remove (Store.remove s "auth_user") "userProfile",
         [CollabCall.authSignOut], [Event.authUserCleared, Event.authUserCleared])) ∧
    (∀ m, c.signOutR = Except.ok (some m) →
      AuthManager.logout c s = (envFail m, s, [CollabCall.authSignOut], [])) ∧
    (∀ m, c.signOutR = Except.error m →
      AuthManager.logout c s = (envFail m, s, [CollabCall.authSignOut], [])) := by
  refine ⟨?_, ?_, ?_⟩
  · intro hok
    simp [AuthManager.logout, AuthManager.clearCurrentUser, hsb, hok]
  · intro m hm
    simp [AuthManager.logout, hsb, hm]
  · intro m hm
    simp [AuthManager.logout, hsb, hm]

/-- Witness for the amended C3: a successful logout on the populated cache. -/
theorem claim3_witness :
    AuthManager.logout cNoSession s6 =
      (envOk, Store.remove (Store.remove s6 "auth_user") "userProfile",
       [CollabCall.authSignOut], [Event.authUserCleared, Event.authUserCleared]) :=
  (claim3_logout_clearing cNoSession s6 rfl).1 rfl

/-- Claim C6 counterexample: `logout()` in the already-anonymous state DOES
issue a collaborator call (`auth.signOut`), and when that call fails the
result is an error envelope — so "performs no network call" and "never
produces an error" are both false. -/
theorem claim6_counterexample :
    (AuthManager.logout cNoSession []).2.2.1 = [CollabCall.authSignOut] ∧
    (AuthManager.logout cNoSession []).2.2.1 ≠ [] ∧
    (AuthManager.logout cSignOutFails []).1.success = false := by
  refine ⟨rfl, ?_, rfl⟩
  rw [show (AuthManager.logout cNoSession []).2.2.1 = [CollabCall.authSignOut] from rfl]
  simp

/-- Claim C6 (amended): `logout()` when already anonymous issues exactly one
collaborator sign-out call; when that call reports no error the result is a
success envelope, the (empty) cache is unchanged, and the clear is an
idempotent no-op. -/
theorem claim6_logout_anonymous (c : Collab) (hsb : c.sbInit = true)
    (hok : c.signOutR = Except.ok none) :
    AuthManager.logout c [] =
      (envOk, [], [CollabCall.authSignOut],
       [Event.authUserCleared, Event.authUserCleared]) := by
  simp [AuthManager.logout, AuthManager.clearCurrentUser, hsb, hok, Store.remove]

/-- Witness for the amended C6. -/
theorem claim6_witness :
    AuthManager.logout cNoSession [] =
      (envOk, [], [CollabCall.authSignOut],
       [Event.authUserCleared, Event.authUserCleared]) :=
  claim6_logout_anonymous cNoSession rfl rfl

/-- Claim C4 counterexample: the part_001 `register` variant, in a run where
identity creation succeeds and profile creation fails, reports the failure
but attempts NO compensating deletion of the created identity — so "in
every register run ... the manager attempts a compensating deletion" is
false for code the claim cites. -/
theorem claim4_counterexample :
    (AuthManagerAlt.register cRegProfFail "a@x.com" "pw" "alice" "" "" []).1.success
      = false ∧
    CollabCall.adminDeleteUser "u1" ∉
      (AuthManagerAlt.register cRegProfFail "a@x.com" "pw" "alice" "" "" []).2.2 := by
  refine ⟨rfl, ?_⟩
  rw [show (AuthManagerAlt.register cRegProfFail "a@x.com" "pw" "alice" "" "" []).2.2 =
    [CollabCall.authSignUp "a@x.com" "pw",
     CollabCall.dbInsertProfile
       { id := "u1", email := "a@x.com", username := "alice",
         firstName := "", lastName := "" }] from rfl]
  simp

/-- Claim C4 (amended): in every register run where identity creation
succeeds and profile creation fails, the auth.js manager attempts a
compensating `admin.deleteUser` of the created identity, writes nothing to
the local cache (the client stays ANONYMOUS), and returns `{success:false}`
with the profile-specific message; the part_001 variant returns the
profile-step error verbatim and also stays anonymous, but attempts no
compensating deletion. -/
theorem claim4_register_compensation (c : Collab)
    (email password username firstName lastName : String) (s : Store) (u : User)
    (pe : PgErr) (sess : Option Unit × Option String)
    (hsb : c.sbInit = true)
    (hsu : c.signUpR = Except.ok (some u, none))
    (hsess : c.getSessionR = Except.ok sess)
    (hpi : c.insertProfileR = Except.ok (some pe))
    (hanon : AuthManager.checkAuth s = false) :
    AuthManager.register c email password username firstName lastName s =
      (envFail (registerProfileMsg pe.message), s,
       [CollabCall.authSignUp email password, CollabCall.authGetSession,
        CollabCall.dbInsertProfile
          { id := u.id, email := email, username := username,
            firstName := firstName, lastName := lastName },
        CollabCall.adminDeleteUser u.id]) ∧
    AuthManager.checkAuth
      (AuthManager.register c email password username firstName lastName s).2.1 = false ∧
    AuthManagerAlt.register c email password username firstName lastName s =
      (envFail pe.message, s,
       [CollabCall.authSignUp email password,
        CollabCall.dbInsertProfile
          { id := u.id, email := email, username := username,
            firstName := firstName, lastName := lastName }]) ∧
    AuthManager.checkAuth
      (AuthManagerAlt.register c email password username firstName lastName s).2.1
      = false := by
  have h1 : AuthManager.register c email password username firstName lastName s =
      (envFail (registerProfileMsg pe.message), s,
       [CollabCall.authSignUp email password, CollabCall.authGetSession,
        CollabCall.dbInsertProfile
          { id := u.id, email := email, username := username,
            firstName := firstName, lastName := lastName },
        CollabCall.adminDeleteUser u.id]) := by
    simp [AuthManager.register, hsb, hsu, hsess, hpi]
  have h2 : AuthManagerAlt.register c email password username firstName lastName s =
      (envFail pe.message, s,
       [CollabCall.authSignUp email password,
        CollabCall.dbInsertProfile
          { id := u.id, email := email, username := username,
            firstName := firstName, lastName := lastName }]) := by
    simp [AuthManagerAlt.register, hsb, hsu, hpi]
  refine ⟨h1, ?_, h2, ?_⟩
  · rw [h1]; exact hanon
  · rw [h2]; exact hanon

/-- Witness for the amended C4 at the concrete policy-rejection run. -/
theorem claim4_witness :
    AuthManager.register cRegProfFail "a@x.com" "pw" "alice" "" "" [] =
      (envFail (registerProfileMsg "permission denied for table profiles"), [],
       [CollabCall.authSignUp "a@x.com" "pw", CollabCall.authGetSession,
        CollabCall.dbInsertProfile
          { id := "u1", email := "a@x.com", username := "alice",
            firstName := "", lastName := "" },
        CollabCall.adminDeleteUser "u1"]) :=
  (claim4_register_compensation cRegProfFail "a@x.com" "pw" "alice" "" "" [] uBob
    { code := "42501", message := "permission denied for table profiles" }
    (none, none) rfl rfl rfl rfl rfl).1

theorem cpUpdateMap_ne_verif (b : String) : cpUpdateMap b ≠ cpVerifMsg := by
  unfold cpUpdateMap
  split_ifs with h1 h2 h3 <;> intro he
  · exact absurd he (by decide)
  · exact absurd he (by decide)
  · exact absurd he (by decide)
  · rw [he] at h2
    exact h2 (by decide)

theorem cpUpdateMsg_ne_verif (m : String) : cpUpdateMsg m ≠ cpVerifMsg :=
  cpUpdateMap_ne_verif _

/-- Claim C5 (confirmed): when verification of the current password fails,
`changePassword` returns `{success:false}` with the verification-specific
message and never calls the password-update step (in both the auth.js and
the part_001 variant); moreover no update-step failure of the auth.js
variant can ever produce the verification message, so the two failure kinds
are reported distinctly. -/
theorem claim5_changePassword_verification (c : Collab) (cur new : String) (u : User)
    (m : String) (hsb : c.sbInit = true)
    (hu : c.getUserR = Except.ok (some u, none))
    (hsi : c.signInR = Except.ok (none, some m)) :
    (AuthManager.changePassword c cur new =
      ({ success := false, error := some cpVerifMsg, requiresLogin := false,
         data := none },
       [CollabCall.authGetUser, CollabCall.authSignIn u.email cur])) ∧
    CollabCall.authUpdateUser new ∉ (AuthManager.changePassword c cur new).2 ∧
    (AuthManagerAlt.changePassword c cur new =
      ({ success := false, error := some "Current password is incorrect",
         requiresLogin := false, data := none },
       [CollabCall.authGetUser, CollabCall.authSignIn u.email cur])) ∧
    CollabCall.authUpdateUser new ∉ (AuthManagerAlt.changePassword c cur new).2 ∧
    (∀ c2 u2 pe, c2.sbInit = true → c2.getUserR = Except.ok (some u2, none) →
      c2.signInR = Except.ok (some u2, none) → c2.updateUserR = Except.ok (some pe) →
      (AuthManager.changePassword c2 cur new).1.error ≠ some cpVerifMsg) := by
  have h1 : AuthManager.changePassword c cur new =
      ({ success := false, error := some cpVerifMsg, requiresLogin := false,
         data := none },
       [CollabCall.authGetUser, CollabCall.authSignIn u.email cur]) := by
    simp [AuthManager.changePassword, hsb, hu, hsi]
  have h2 : AuthManagerAlt.changePassword c cur new =
      ({ success := false, error := some "Current password is incorrect",
         requiresLogin := false, data := none },
       [CollabCall.authGetUser, CollabCall.authSignIn u.email cur]) := by
    simp [AuthManagerAlt.changePassword, AuthManager.getCurrentUser, hsb, hu, hsi]
  refine ⟨h1, ?_, h2, ?_, ?_⟩
  · rw [h1]; simp
  · rw [h2]; simp
  · intro c2 u2 pe hsb2 hu2 hsi2 hup2
    have h3 : AuthManager.changePassword c2 cur new =
        (envFail (cpUpdateMsg pe),
         [CollabCall.authGetUser, CollabCall.authSignIn u2.email cur,
          CollabCall.authUpdateUser new]) := by
      simp [AuthManager.changePassword, hsb2, hu2, hsi2, hup2]
    rw [h3]
    simp [envFail, cpUpdateMsg_ne_verif pe]

/-- Witness for C5: a wrong current password at the concrete oracle. -/
theorem claim5_witness :
    AuthManager.changePassword cWrongPw "old" "new" =
      ({ success := false, error := some cpVerifMsg, requiresLogin := false,
         data := none },
       [CollabCall.authGetUser, CollabCall.authSignIn "bob@example.com" "old"]) :=
  (claim5_changePassword_verification cWrongPw "old" "new" uBob
    "Invalid login credentials" rfl rfl rfl).1

/-- Claim C7 (confirmed): for an authenticated session user `u`, every
metric query and mutation the facade issues is scoped by `u.id` (derived
from the session via `getCurrentUser`), regardless of the caller-supplied
`metricData`/`metricId` — the issued call lists are exactly the session
lookup followed by one database call carrying `u.id`. -/
theorem claim7_metric_scoping (c : Collab) (u : User) (md : MetricData) (mid : String)
    (hsb : c.sbInit = true) (hu : c.getUserR = Except.ok (some u, none)) :
    (API.getMetrics c).2 = [CollabCall.authGetUser, CollabCall.dbSelectMetrics u.id] ∧
    (API.addMetric c md).2 =
      [CollabCall.authGetUser,
       CollabCall.dbInsertMetric
         { user_id := u.id, category := md.category, value := md.value,
           description := md.description }] ∧
    (API.deleteMetric c mid).2 =
      [CollabCall.authGetUser, CollabCall.dbDeleteMetric mid u.id] := by
  refine ⟨?_, ?_, ?_⟩
  · rcases hm : c.selectMetricsR with m | ⟨rows, e⟩
    · simp [API.getMetrics, AuthManager.getCurrentUser, hsb, hu, hm]
    · cases e <;> simp [API.getMetrics, AuthManager.getCurrentUser, hsb, hu, hm]
  · rcases hm : c.insertMetricR with m | ⟨rows, e⟩
    · simp [API.addMetric, AuthManager.getCurrentUser, hsb, hu, hm]
    · cases e <;> simp [API.addMetric, AuthManager.getCurrentUser, hsb, hu, hm]
  · rcases hm : c.deleteMetricR with m | ⟨e, n⟩
    · simp [API.deleteMetric, AuthManager.getCurrentUser, hsb, hu, hm]
    · cases e <;> simp [API.deleteMetric, AuthManager.getCurrentUser, hsb, hu, hm]

/-- Witness for C7 at the concrete authenticated oracle. -/
theorem claim7_witness :
    (API.getMetrics cBob).2 = [CollabCall.authGetUser, CollabCall.dbSelectMetrics "u1"] ∧
    (API.addMetric cBob
        { category := "food", value := Json.num 12, description := "lunch" }).2 =
      [CollabCall.authGetUser,
       CollabCall.dbInsertMetric
         { user_id := "u1", category := "food", value := Json.num 12,
           description := "lunch" }] ∧
    (API.deleteMetric cBob "m7").2 =
      [CollabCall.authGetUser, CollabCall.dbDeleteMetric "m7" "u1"] :=
  claim7_metric_scoping cBob uBob
    { category := "food", value := Json.num 12, description := "lunch" } "m7" rfl rfl

/-- Claim C9 (code bug): with no stored display-name fields and no profile
row, `Navigation.init` renders the authenticated user `bob@example.com` as
`"Guest"`, not `"bob"` — `init` resolves the name before `this.user` is
set, so the authenticated fallbacks are dead; the same resolution function,
run with the user available as the spec intends, does yield `"bob"`. -/
theorem claim9_navigation_guest :
    Navigation.userName (Navigation.init cBob []) = "Guest" ∧
    Navigation.loadUserProfileNameData cBob [] (some uBob) = some "bob" := by
  constructor <;> rfl

/-- Claim C10 (confirmed): `deleteMetric(metricId)` returns the plain
`{success:true}` envelope whenever the collaborator reports no error,
for EVERY matched-row count `n` — a zero-row delete (nonexistent or
foreign id) is indistinguishable from an actual deletion. -/
theorem claim10_deleteMetric_blind (c : Collab) (u : User) (mid : String) (n : Nat)
    (hsb : c.sbInit = true) (hu : c.getUserR = Except.ok (some u, none))
    (hd : c.deleteMetricR = Except.ok (none, n)) :
    (API.deleteMetric c mid).1 = envOk := by
  simp [API.deleteMetric, AuthManager.getCurrentUser, hsb, hu, hd]

/-- Witness for C10: deleting a nonexistent id (zero rows matched) reports
success. -/
theorem claim10_witness : (API.deleteMetric cDelZero "no-such-id").1 = envOk :=
  claim10_deleteMetric_blind cDelZero uBob "no-such-id" 0 rfl rfl rfl
